import Mathlib

/-!
Verification of `src/BlackBone/Process/MemBlock.cpp` (the RemoteMemoryBlock
core): a shallow embedding of the `MemBlock` state and of its operations
`Allocate`, `Realloc`, `Protect`, `Free` and `Reset`, followed by theorems
settling the specification claims about them.

External collaborators (`ProcessMemory`, the driver channel, `CastProtection`,
`Align`, `LastNtStatus`) are not part of the source file; they are taken as
oracle functions in an environment record, with behaviour modelled from the
specification where the claims depend on it.
-/

namespace Blackbone

/-- Word modulus for `size_t` / `ptr_t` (64-bit build): arithmetic on the
block fields wraps modulo `W`. -/
def W : Nat := 2 ^ 64

/-- `NTSTATUS` values are signed 32-bit integers; we carry them as `Int`. -/
def STATUS_SUCCESS : Int := 0

/-- Informational status recorded when an allocation succeeds only at a
fallback base (`0x40000003`). -/
def STATUS_IMAGE_NOT_AT_BASE : Int := 1073741827

/-- A representative failing status (`0xC0000022` as a signed 32-bit value). -/
def STATUS_ACCESS_DENIED : Int := -1073741790

/-- The `NT_SUCCESS` macro: a status is successful iff it is non-negative. -/
def NT_SUCCESS (s : Int) : Prop := 0 ≤ s

instance (s : Int) : Decidable (NT_SUCCESS s) :=
  inferInstanceAs (Decidable (0 ≤ s))

/-- Native allocation-type / free-type flag `MEM_COMMIT`. -/
def MEM_COMMIT : Nat := 4096

/-- Native free-type flag `MEM_RELEASE` (release the whole region). -/
def MEM_RELEASE : Nat := 32768

/-- Native free-type flag `MEM_DECOMMIT` (decommit a sub-range). -/
def MEM_DECOMMIT : Nat := 16384

/-- Modelled from the spec: the `Align` helper (defined outside the source
file) rounds a size up to the allocation granularity; computed in `size_t`,
hence the reduction modulo `W` on the overflowing branch. -/
def Align (val align : Nat) : Nat :=
  if val % align = 0 then val else ((val / align + 1) * align) % W

/-- One observable call to a collaborator, as issued by the block. -/
inductive CallEvt where
  | accessorFree (addr size mode : Nat)
  | driverFree (pid addr size mode : Nat)
  | accessorProtect (addr size prot : Nat)
  | driverProtect (pid addr size prot : Nat)
  | allocReq (desired size allocType prot : Nat)
  deriving DecidableEq

/-- The `MemBlock` descriptor: `_ptr`, `_size`, `_protection`, `_own`,
`_physical`, and whether `_memory` is a non-null accessor reference. -/
structure MemBlock where
  ptr : Nat
  size : Nat
  protection : Nat
  own : Bool
  physical : Bool
  memSet : Bool
  deriving DecidableEq

/-- The environment of external collaborators. `allocFn` is
`Native::VirualAllocExT`, modelled from the spec: it takes the desired base
and returns the status together with the by-reference base address, which is
the allocated base on success and `0` on failure. `accFreeFn`, `accProtFn`
are the `ProcessMemory` primitives; `drvFreeFn`, `drvProtFn` the privileged
driver primitives (taking the process id first); `castProt` is
`CastProtection` applied to a protection and the DEP flag. -/
structure Env where
  pid : Nat
  dep : Bool
  castProt : Nat → Bool → Nat
  allocFn : Nat → Nat → Nat → Int × Nat
  accFreeFn : Nat → Nat → Nat → Int
  drvFreeFn : Nat → Nat → Nat → Nat → Int
  accProtFn : Nat → Nat → Nat → Int
  drvProtFn : Nat → Nat → Nat → Nat → Int

/-- Modelled from the spec: a collaborator surfaces a failing status through
the thread-local last-error channel; successful statuses leave it alone. -/
def recordStatus (last s : Int) : Int :=
  if NT_SUCCESS s then last else s

/-- Result of a status-returning operation on a block: the mutated block, the
returned status, the last-error channel afterwards, and the collaborator
calls that were issued. -/
structure OpResult where
  block : MemBlock
  status : Int
  last : Int
  calls : List CallEvt
  deriving DecidableEq

/-- The status returned by the collaborator chosen in `MemBlock::Free`:
`Driver().FreeMem(pid, _ptr, size, MEM_RELEASE)` when `_physical`, else
`_memory->Free(_ptr, size, size == 0 ? MEM_RELEASE : MEM_DECOMMIT)`. -/
def MemBlock.freeStatus (env : Env) (b : MemBlock) (size : Nat) : Int :=
  if b.physical then env.drvFreeFn env.pid b.ptr size MEM_RELEASE
  else env.accFreeFn b.ptr size (if size = 0 then MEM_RELEASE else MEM_DECOMMIT)

/-- The collaborator call issued by `MemBlock::Free` (same dispatch as
`MemBlock.freeStatus`). -/
def MemBlock.freeCall (env : Env) (b : MemBlock) (size : Nat) : CallEvt :=
  if b.physical then CallEvt.driverFree env.pid b.ptr size MEM_RELEASE
  else CallEvt.accessorFree b.ptr size (if size = 0 then MEM_RELEASE else MEM_DECOMMIT)

/-- `MemBlock::Free(size)`. If `_ptr == 0` nothing happens and
`STATUS_SUCCESS` is returned. Otherwise `size` is aligned up to `0x1000`,
the dispatched collaborator free is issued; on a non-success status the
block is untouched and `LastNtStatus()` (the failing status, recorded in the
channel by the collaborator) is returned; on success with aligned size `0`
the descriptor is cleared, and with a positive aligned size the window is
advanced (`_ptr += size; _size -= size`, in `size_t` arithmetic). -/
def MemBlock.Free (env : Env) (b : MemBlock) (last : Int) (size0 : Nat) : OpResult :=
  if b.ptr = 0 then
    { block := b, status := STATUS_SUCCESS, last := last, calls := [] }
  else if NT_SUCCESS (MemBlock.freeStatus env b (Align (size0 % W) 4096)) then
    if Align (size0 % W) 4096 = 0 then
      { block := { b with ptr := 0, size := 0, protection := 0 },
        status := STATUS_SUCCESS, last := last,
        calls := [MemBlock.freeCall env b (Align (size0 % W) 4096)] }
    else
      { block := { b with ptr := (b.ptr + Align (size0 % W) 4096) % W,
                          size := (b.size + (W - Align (size0 % W) 4096)) % W },
        status := STATUS_SUCCESS, last := last,
        calls := [MemBlock.freeCall env b (Align (size0 % W) 4096)] }
  else
    { block := b,
      status := MemBlock.freeStatus env b (Align (size0 % W) 4096),
      last := MemBlock.freeStatus env b (Align (size0 % W) 4096),
      calls := [MemBlock.freeCall env b (Align (size0 % W) 4096)] }

/-- Result of `MemBlock::Allocate`: the returned block, the last-error
channel and the issued allocation calls. -/
structure AllocResult where
  block : MemBlock
  last : Int
  calls : List CallEvt
  deriving DecidableEq

/-- `MemBlock::Allocate(process, size, desired, protection)`: try the
translated protection at `desired`; on a status other than `STATUS_SUCCESS`
retry once at base `0`, recording `STATUS_IMAGE_NOT_AT_BASE` if the retry
succeeds and forcing the base to `0` if it fails. The returned block always
carries the requested `size` and the untranslated `protection`, owns its
memory and has virtual backing. -/
def MemBlock.Allocate (env : Env) (last : Int) (size desired protection : Nat) : AllocResult :=
  let newProt := env.castProt protection env.dep
  let r1 := env.allocFn desired size newProt
  if r1.1 ≠ STATUS_SUCCESS then
    let r2 := env.allocFn 0 size newProt
    if r2.1 = STATUS_SUCCESS then
      { block := { ptr := r2.2, size := size, protection := protection,
                   own := true, physical := false, memSet := true },
        last := STATUS_IMAGE_NOT_AT_BASE,
        calls := [CallEvt.allocReq desired size MEM_COMMIT newProt,
                  CallEvt.allocReq 0 size MEM_COMMIT newProt] }
    else
      { block := { ptr := 0, size := size, protection := protection,
                   own := true, physical := false, memSet := true },
        last := recordStatus (recordStatus last r1.1) r2.1,
        calls := [CallEvt.allocReq desired size MEM_COMMIT newProt,
                  CallEvt.allocReq 0 size MEM_COMMIT newProt] }
  else
    { block := { ptr := r1.2, size := size, protection := protection,
                 own := true, physical := false, memSet := true },
      last := recordStatus last r1.1,
      calls := [CallEvt.allocReq desired size MEM_COMMIT newProt] }

/-- Result of `MemBlock::Realloc`: the mutated block, the returned address,
the last-error channel and the issued calls. -/
structure ReallocResult where
  block : MemBlock
  ret : Nat
  last : Int
  calls : List CallEvt
  deriving DecidableEq

/-- `MemBlock::Realloc(size, desired, protection)`: allocate (no protection
translation here); if the by-reference base came back `0`, retry at base `0`
and record `STATUS_IMAGE_NOT_AT_BASE` on a successful retry. If a non-zero
base was obtained, `Free()` the old region in full, then rebind `_ptr`,
`_size`, `_protection` to the new values; otherwise leave the block alone.
Returns the obtained base (`0` on failure). -/
def MemBlock.Realloc (env : Env) (b : MemBlock) (last : Int) (size desired protection : Nat) : ReallocResult :=
  let r1 := env.allocFn desired size protection
  let t : Nat × Int × List CallEvt :=
    if r1.2 = 0 then
      let r2 := env.allocFn 0 size protection
      (r2.2,
       if r2.2 ≠ 0 then STATUS_IMAGE_NOT_AT_BASE else recordStatus (recordStatus last r1.1) r2.1,
       [CallEvt.allocReq desired size MEM_COMMIT protection,
        CallEvt.allocReq 0 size MEM_COMMIT protection])
    else
      (r1.2, recordStatus last r1.1,
       [CallEvt.allocReq desired size MEM_COMMIT protection])
  if t.1 ≠ 0 then
    let fr := MemBlock.Free env b t.2.1 0
    { block := { fr.block with ptr := t.1, size := size, protection := protection },
      ret := t.1, last := fr.last, calls := t.2.2 ++ fr.calls }
  else
    { block := b, ret := 0, last := t.2.1, calls := t.2.2 }

/-- The status returned by the collaborator chosen in `MemBlock::Protect`. -/
def MemBlock.protStatus (env : Env) (b : MemBlock) (addr size prot : Nat) : Int :=
  if b.physical then env.drvProtFn env.pid addr size prot
  else env.accProtFn addr size prot

/-- The collaborator call issued by `MemBlock::Protect`. -/
def MemBlock.protCall (env : Env) (b : MemBlock) (addr size prot : Nat) : CallEvt :=
  if b.physical then CallEvt.driverProtect env.pid addr size prot
  else CallEvt.accessorProtect addr size prot

/-- `MemBlock::Protect(protection, offset, size, pOld)`: translate the
protection, default `size == 0` to the whole `_size`, and dispatch to the
driver (with the pid) when `_physical`, else to the accessor. The block
fields are not modified; the collaborator status is returned. (The `pOld`
out-parameter is merely forwarded to the accessor and is not modelled.) -/
def MemBlock.Protect (env : Env) (b : MemBlock) (last : Int) (protection offset size0 : Nat) : OpResult :=
  { block := b,
    status := MemBlock.protStatus env b ((b.ptr + offset) % W)
      (if size0 = 0 then b.size else size0) (env.castProt protection env.dep),
    last := recordStatus last (MemBlock.protStatus env b ((b.ptr + offset) % W)
      (if size0 = 0 then b.size else size0) (env.castProt protection env.dep)),
    calls := [MemBlock.protCall env b ((b.ptr + offset) % W)
      (if size0 = 0 then b.size else size0) (env.castProt protection env.dep)] }

/-- Result of `MemBlock::Reset` (which returns no status). -/
structure ResetResult where
  block : MemBlock
  last : Int
  calls : List CallEvt
  deriving DecidableEq

/-- `MemBlock::Reset()`: perform a full `Free()` (its status is discarded),
then unconditionally clear `_ptr`, `_size`, `_protection`, set `_own` to
false and null the `_memory` reference. -/
def MemBlock.Reset (env : Env) (b : MemBlock) (last : Int) : ResetResult :=
  let fr := MemBlock.Free env b last 0
  { block := { fr.block with ptr := 0, size := 0, protection := 0,
                             own := false, memSet := false },
    last := fr.last, calls := fr.calls }

/-! ## Basic lemmas about `Free`, `Reset` and `Protect` -/

/-- Aligning a zero size yields zero. -/
theorem align_zero : Align (0 % W) 4096 = 0 := by decide

/-- `Free` on an empty block does nothing, issues no collaborator call and
returns `STATUS_SUCCESS`. -/
theorem free_noop_eq (env : Env) (b : MemBlock) (last : Int) (s : Nat)
    (h : b.ptr = 0) :
    MemBlock.Free env b last s =
      { block := b, status := STATUS_SUCCESS, last := last, calls := [] } := by
  unfold MemBlock.Free
  rw [if_pos h]

/-- A successful full `Free` (size `0`) of a non-empty block clears the
descriptor and returns `STATUS_SUCCESS`. -/
theorem free_full_eq (env : Env) (b : MemBlock) (last : Int)
    (h : b.ptr ≠ 0) (hok : NT_SUCCESS (MemBlock.freeStatus env b 0)) :
    MemBlock.Free env b last 0 =
      { block := { b with ptr := 0, size := 0, protection := 0 },
        status := STATUS_SUCCESS, last := last,
        calls := [MemBlock.freeCall env b 0] } := by
  unfold MemBlock.Free
  rw [if_neg h, align_zero, if_pos hok, if_pos rfl]

/-- A successful `Free` with a positive aligned size advances the window. -/
theorem free_shrink_eq (env : Env) (b : MemBlock) (last : Int) (s : Nat)
    (h : b.ptr ≠ 0) (hk : Align (s % W) 4096 ≠ 0)
    (hok : NT_SUCCESS (MemBlock.freeStatus env b (Align (s % W) 4096))) :
    MemBlock.Free env b last s =
      { block := { b with ptr := (b.ptr + Align (s % W) 4096) % W,
                          size := (b.size + (W - Align (s % W) 4096)) % W },
        status := STATUS_SUCCESS, last := last,
        calls := [MemBlock.freeCall env b (Align (s % W) 4096)] } := by
  unfold MemBlock.Free
  rw [if_neg h, if_pos hok, if_neg hk]

/-- A `Free` whose collaborator reports a non-success status leaves the
block untouched and surfaces that status both as the return value and in
the last-error channel. -/
theorem free_fail_eq (env : Env) (b : MemBlock) (last : Int) (s : Nat)
    (h : b.ptr ≠ 0)
    (hbad : ¬ NT_SUCCESS (MemBlock.freeStatus env b (Align (s % W) 4096))) :
    MemBlock.Free env b last s =
      { block := b,
        status := MemBlock.freeStatus env b (Align (s % W) 4096),
        last := MemBlock.freeStatus env b (Align (s % W) 4096),
        calls := [MemBlock.freeCall env b (Align (s % W) 4096)] } := by
  unfold MemBlock.Free
  rw [if_neg h, if_neg hbad]

/-- `Free` on a non-empty block issues exactly the dispatched collaborator
call, whatever the outcome. -/
theorem free_calls_eq (env : Env) (b : MemBlock) (last : Int) (s : Nat)
    (h : b.ptr ≠ 0) :
    (MemBlock.Free env b last s).calls =
      [MemBlock.freeCall env b (Align (s % W) 4096)] := by
  unfold MemBlock.Free
  rw [if_neg h]
  by_cases hok : NT_SUCCESS (MemBlock.freeStatus env b (Align (s % W) 4096))
  · rw [if_pos hok]
    by_cases hz : Align (s % W) 4096 = 0
    · rw [if_pos hz]
    · rw [if_neg hz]
  · rw [if_neg hok]

/-- `Free` never changes the backing flag. -/
theorem free_preserves_physical (env : Env) (b : MemBlock) (last : Int) (s : Nat) :
    (MemBlock.Free env b last s).block.physical = b.physical := by
  unfold MemBlock.Free
  by_cases h : b.ptr = 0
  · rw [if_pos h]
  · rw [if_neg h]
    by_cases hok : NT_SUCCESS (MemBlock.freeStatus env b (Align (s % W) 4096))
    · rw [if_pos hok]
      by_cases hz : Align (s % W) 4096 = 0
      · rw [if_pos hz]
      · rw [if_neg hz]
    · rw [if_neg hok]

/-- `Reset` always yields the empty, disowned, accessor-less descriptor
(only the backing flag survives), whatever the collaborators do. -/
theorem reset_eq (env : Env) (b : MemBlock) (last : Int) :
    (MemBlock.Reset env b last).block =
      { ptr := 0, size := 0, protection := 0, own := false,
        physical := b.physical, memSet := false } := by
  simp only [MemBlock.Reset]
  rw [free_preserves_physical]

/-! ## Concrete collaborator environments used by witnesses -/

/-- An environment whose allocator succeeds only at base `0` (handing out the
base `8192`) and whose other collaborators all succeed. -/
def envOk : Env :=
  { pid := 7, dep := false, castProt := fun p _ => p,
    allocFn := fun d _ _ =>
      if d = 0 then (STATUS_SUCCESS, 8192) else (STATUS_ACCESS_DENIED, 0),
    accFreeFn := fun _ _ _ => STATUS_SUCCESS,
    drvFreeFn := fun _ _ _ _ => STATUS_SUCCESS,
    accProtFn := fun _ _ _ => STATUS_SUCCESS,
    drvProtFn := fun _ _ _ _ => STATUS_SUCCESS }

/-- An environment whose allocator denies every request. -/
def envBothFail : Env :=
  { pid := 7, dep := false, castProt := fun p _ => p,
    allocFn := fun _ _ _ => (STATUS_ACCESS_DENIED, 0),
    accFreeFn := fun _ _ _ => STATUS_SUCCESS,
    drvFreeFn := fun _ _ _ _ => STATUS_SUCCESS,
    accProtFn := fun _ _ _ => STATUS_SUCCESS,
    drvProtFn := fun _ _ _ _ => STATUS_SUCCESS }

/-- An environment whose free primitives always fail. -/
def envFreeFail : Env :=
  { envOk with accFreeFn := fun _ _ _ => STATUS_ACCESS_DENIED,
               drvFreeFn := fun _ _ _ _ => STATUS_ACCESS_DENIED }

/-- A virtual-backed owning block at `0x10000` of size `0x2000`. -/
def blockV : MemBlock :=
  { ptr := 65536, size := 8192, protection := 4, own := true,
    physical := false, memSet := true }

/-- A physical-backed owning block at `0x10000` of size `0x2000`. -/
def blockP : MemBlock :=
  { ptr := 65536, size := 8192, protection := 4, own := true,
    physical := true, memSet := true }

/-- A virtual-backed owning block at `0x11000` of exactly one page. -/
def blockC : MemBlock :=
  { ptr := 69632, size := 4096, protection := 4, own := true,
    physical := false, memSet := true }

/-! ## Claims -/

/-- C1 (amended): the empty-state invariant `size == 0 ∧ protection == 0`
holds for every block whose address becomes `0` through a successful full
`Free` of a non-empty block or through `Reset`; a fully failed `Allocate`
(both the preferred-address attempt and the fallback attempt denied) instead
returns a block whose address is `0` while its `size` and `protection`
fields retain the requested arguments. -/
theorem C1_empty_state_amended
    (envF : Env) (bF : MemBlock) (lastF : Int)
    (hptr : bF.ptr ≠ 0) (hok : NT_SUCCESS (MemBlock.freeStatus envF bF 0))
    (envR : Env) (bR : MemBlock) (lastR : Int)
    (envA : Env) (lastA : Int) (sz d p : Nat)
    (ha1 : (envA.allocFn d sz (envA.castProt p envA.dep)).1 ≠ STATUS_SUCCESS)
    (ha2 : (envA.allocFn 0 sz (envA.castProt p envA.dep)).1 ≠ STATUS_SUCCESS) :
    ((MemBlock.Free envF bF lastF 0).block.ptr = 0 ∧
      (MemBlock.Free envF bF lastF 0).block.size = 0 ∧
      (MemBlock.Free envF bF lastF 0).block.protection = 0) ∧
    ((MemBlock.Reset envR bR lastR).block.ptr = 0 ∧
      (MemBlock.Reset envR bR lastR).block.size = 0 ∧
      (MemBlock.Reset envR bR lastR).block.protection = 0) ∧
    ((MemBlock.Allocate envA lastA sz d p).block.ptr = 0 ∧
      (MemBlock.Allocate envA lastA sz d p).block.size = sz ∧
      (MemBlock.Allocate envA lastA sz d p).block.protection = p) := by
  refine ⟨?_, ?_, ?_⟩
  · rw [free_full_eq envF bF lastF hptr hok]
    exact ⟨rfl, rfl, rfl⟩
  · rw [reset_eq]
    exact ⟨rfl, rfl, rfl⟩
  · simp only [MemBlock.Allocate]
    rw [if_pos ha1, if_neg ha2]
    exact ⟨rfl, rfl, rfl⟩

/-- C1 witness: the amended statement at concrete inputs. -/
theorem C1_empty_state_witness :
    ((MemBlock.Free envOk blockV 0 0).block.ptr = 0 ∧
      (MemBlock.Free envOk blockV 0 0).block.size = 0 ∧
      (MemBlock.Free envOk blockV 0 0).block.protection = 0) ∧
    ((MemBlock.Reset envOk blockP 0).block.ptr = 0 ∧
      (MemBlock.Reset envOk blockP 0).block.size = 0 ∧
      (MemBlock.Reset envOk blockP 0).block.protection = 0) ∧
    ((MemBlock.Allocate envBothFail 0 4096 65536 4).block.ptr = 0 ∧
      (MemBlock.Allocate envBothFail 0 4096 65536 4).block.size = 4096 ∧
      (MemBlock.Allocate envBothFail 0 4096 65536 4).block.protection = 4) :=
  C1_empty_state_amended envOk blockV 0 (by decide) (by decide)
    envOk blockP 0 envBothFail 0 4096 65536 4 (by decide) (by decide)

/-- C1 counterexample: the claim as stated is false — a fully failed
`Allocate` (requested size `0x1000`, protection `4`) returns a block with
`address == 0` whose `size` and `protection` are not both `0`. -/
theorem C1_empty_state_cex :
    (MemBlock.Allocate envBothFail 0 4096 65536 4).block.ptr = 0 ∧
    ¬ ((MemBlock.Allocate envBothFail 0 4096 65536 4).block.size = 0 ∧
       (MemBlock.Allocate envBothFail 0 4096 65536 4).block.protection = 0) := by
  decide

/-- C2: with an allocator that denies the non-zero desired base but succeeds
at base `0` handing out the OS-chosen base `a` (non-zero, different from the
denied base), `Allocate` retries exactly once with base `0`, returns a valid
owning virtual block at `a` (in particular not at the desired base), and
records `STATUS_IMAGE_NOT_AT_BASE` in the last-error channel. -/
theorem C2_alloc_fallback (env : Env) (last : Int) (size desired protection a : Nat)
    (_hd : desired ≠ 0)
    (h1 : (env.allocFn desired size (env.castProt protection env.dep)).1 ≠ STATUS_SUCCESS)
    (h2 : env.allocFn 0 size (env.castProt protection env.dep) = (STATUS_SUCCESS, a))
    (ha : a ≠ 0) (hne : a ≠ desired) :
    (MemBlock.Allocate env last size desired protection).block.ptr = a ∧
    (MemBlock.Allocate env last size desired protection).block.ptr ≠ 0 ∧
    (MemBlock.Allocate env last size desired protection).block.ptr ≠ desired ∧
    (MemBlock.Allocate env last size desired protection).block.own = true ∧
    (MemBlock.Allocate env last size desired protection).block.physical = false ∧
    (MemBlock.Allocate env last size desired protection).last = STATUS_IMAGE_NOT_AT_BASE ∧
    (MemBlock.Allocate env last size desired protection).calls =
      [CallEvt.allocReq desired size MEM_COMMIT (env.castProt protection env.dep),
       CallEvt.allocReq 0 size MEM_COMMIT (env.castProt protection env.dep)] := by
  simp only [MemBlock.Allocate]
  rw [if_pos h1, h2]
  exact ⟨rfl, ha, hne, rfl, rfl, rfl, rfl⟩

/-- C2 witness: the fallback scenario at concrete inputs (desired base
`0x10000` denied, OS hands out `0x2000`). -/
theorem C2_alloc_fallback_witness :
    (MemBlock.Allocate envOk 0 4096 65536 4).block.ptr = 8192 ∧
    (MemBlock.Allocate envOk 0 4096 65536 4).block.ptr ≠ 0 ∧
    (MemBlock.Allocate envOk 0 4096 65536 4).block.ptr ≠ 65536 ∧
    (MemBlock.Allocate envOk 0 4096 65536 4).block.own = true ∧
    (MemBlock.Allocate envOk 0 4096 65536 4).block.physical = false ∧
    (MemBlock.Allocate envOk 0 4096 65536 4).last = STATUS_IMAGE_NOT_AT_BASE ∧
    (MemBlock.Allocate envOk 0 4096 65536 4).calls =
      [CallEvt.allocReq 65536 4096 MEM_COMMIT (envOk.castProt 4 envOk.dep),
       CallEvt.allocReq 0 4096 MEM_COMMIT (envOk.castProt 4 envOk.dep)] :=
  C2_alloc_fallback envOk 0 4096 65536 4 8192 (by decide) (by decide)
    (by decide) (by decide) (by decide)

/-- C3 (amended): a successful partial `Free(k)` with `0 < round_up(k) <
size` advances the window (`address += round_up(k)`, `size -= round_up(k)`)
and leaves the block non-empty; but driving the remaining size to `0` by
partial frees does NOT reach the empty state: the final partial free leaves
`address = original + S ≠ 0` and the protection field untouched, so only a
full `Free(0)` or `Reset` empties the descriptor. -/
theorem C3_shrink_amended
    (env : Env) (b : MemBlock) (last : Int) (k : Nat)
    (hptr : b.ptr ≠ 0)
    (hk1 : Align (k % W) 4096 ≠ 0) (hk2 : Align (k % W) 4096 < b.size)
    (hbp : b.ptr + Align (k % W) 4096 < W) (hbs : b.size < W)
    (hok : NT_SUCCESS (MemBlock.freeStatus env b (Align (k % W) 4096)))
    (env2 : Env) (c : MemBlock) (last2 : Int) (m : Nat)
    (hc : c.ptr ≠ 0) (hm : Align (m % W) 4096 = c.size) (hm0 : c.size ≠ 0)
    (hcp : c.ptr + c.size < W)
    (hok2 : NT_SUCCESS (MemBlock.freeStatus env2 c (Align (m % W) 4096))) :
    ((MemBlock.Free env b last k).status = STATUS_SUCCESS ∧
      (MemBlock.Free env b last k).block.ptr = b.ptr + Align (k % W) 4096 ∧
      (MemBlock.Free env b last k).block.size = b.size - Align (k % W) 4096 ∧
      (MemBlock.Free env b last k).block.protection = b.protection ∧
      (MemBlock.Free env b last k).block.ptr ≠ 0 ∧
      (MemBlock.Free env b last k).block.size ≠ 0) ∧
    ((MemBlock.Free env2 c last2 m).block.size = 0 ∧
      (MemBlock.Free env2 c last2 m).block.ptr = c.ptr + c.size ∧
      (MemBlock.Free env2 c last2 m).block.ptr ≠ 0 ∧
      (MemBlock.Free env2 c last2 m).block.protection = c.protection) := by
  have hkW : Align (k % W) 4096 ≤ W := le_of_lt (lt_trans hk2 hbs)
  constructor
  · rw [free_shrink_eq env b last k hptr hk1 hok]
    have hptrEq : (b.ptr + Align (k % W) 4096) % W = b.ptr + Align (k % W) 4096 :=
      Nat.mod_eq_of_lt hbp
    have hszEq : (b.size + (W - Align (k % W) 4096)) % W = b.size - Align (k % W) 4096 := by
      have h1 : b.size + (W - Align (k % W) 4096) = (b.size - Align (k % W) 4096) + W := by
        omega
      rw [h1, Nat.add_mod_right]
      exact Nat.mod_eq_of_lt (by omega)
    refine ⟨rfl, hptrEq, hszEq, rfl, ?_, ?_⟩
    · show (b.ptr + Align (k % W) 4096) % W ≠ 0
      rw [hptrEq]
      omega
    · show (b.size + (W - Align (k % W) 4096)) % W ≠ 0
      rw [hszEq]
      omega
  · have hm1 : Align (m % W) 4096 ≠ 0 := by rw [hm]; exact hm0
    rw [free_shrink_eq env2 c last2 m hc hm1 hok2, hm]
    have hcW : c.size ≤ W := by omega
    have hszEq : (c.size + (W - c.size)) % W = 0 := by
      have h1 : c.size + (W - c.size) = W := by omega
      rw [h1, Nat.mod_self]
    have hptrEq : (c.ptr + c.size) % W = c.ptr + c.size := Nat.mod_eq_of_lt hcp
    refine ⟨hszEq, hptrEq, ?_, rfl⟩
    show (c.ptr + c.size) % W ≠ 0
    rw [hptrEq]
    omega

/-- C3 witness: the amended statement at concrete inputs (a `0x2000` block
partially freed by one page, and a one-page block consumed by one partial
free). -/
theorem C3_shrink_witness :
    ((MemBlock.Free envOk blockV 0 4096).status = STATUS_SUCCESS ∧
      (MemBlock.Free envOk blockV 0 4096).block.ptr = 65536 + Align (4096 % W) 4096 ∧
      (MemBlock.Free envOk blockV 0 4096).block.size = 8192 - Align (4096 % W) 4096 ∧
      (MemBlock.Free envOk blockV 0 4096).block.protection = 4 ∧
      (MemBlock.Free envOk blockV 0 4096).block.ptr ≠ 0 ∧
      (MemBlock.Free envOk blockV 0 4096).block.size ≠ 0) ∧
    ((MemBlock.Free envOk blockC 0 4096).block.size = 0 ∧
      (MemBlock.Free envOk blockC 0 4096).block.ptr = 69632 + 4096 ∧
      (MemBlock.Free envOk blockC 0 4096).block.ptr ≠ 0 ∧
      (MemBlock.Free envOk blockC 0 4096).block.protection = 4) :=
  C3_shrink_amended envOk blockV 0 4096 (by decide) (by decide) (by decide)
    (by decide) (by decide) (by decide)
    envOk blockC 0 4096 (by decide) (by decide) (by decide) (by decide) (by decide)

/-- C3 counterexample: repeating partial frees until the remaining size
reaches `0` does not yield the empty state — a one-page block partially
freed by one page ends with `size = 0` but `address ≠ 0` and
`protection ≠ 0`. -/
theorem C3_shrink_cex :
    (MemBlock.Free envOk blockC 0 4096).block.size = 0 ∧
    (MemBlock.Free envOk blockC 0 4096).block.ptr ≠ 0 ∧
    (MemBlock.Free envOk blockC 0 4096).block.protection ≠ 0 := by
  decide

/-- C4 (amended): on a Virtual-backed non-empty block, `Free` with a
positive aligned size issues a decommit-mode native free of the leading
`round_up(size, page)` bytes, and `Free(0)` issues a release-mode native
free of the entire region; on a Physical-backed block, however, the driver
free is always issued in release mode, even for a positive size. -/
theorem C4_free_modes_amended
    (envV : Env) (bV : MemBlock) (lastV : Int) (k : Nat)
    (hv : bV.physical = false) (hvp : bV.ptr ≠ 0) (hk : Align (k % W) 4096 ≠ 0)
    (envW : Env) (bW : MemBlock) (lastW : Int)
    (hw : bW.physical = false) (hwp : bW.ptr ≠ 0)
    (envP : Env) (bP : MemBlock) (lastP : Int) (m : Nat)
    (hp : bP.physical = true) (hpp : bP.ptr ≠ 0) :
    (MemBlock.Free envV bV lastV k).calls =
      [CallEvt.accessorFree bV.ptr (Align (k % W) 4096) MEM_DECOMMIT] ∧
    (MemBlock.Free envW bW lastW 0).calls =
      [CallEvt.accessorFree bW.ptr 0 MEM_RELEASE] ∧
    (MemBlock.Free envP bP lastP m).calls =
      [CallEvt.driverFree envP.pid bP.ptr (Align (m % W) 4096) MEM_RELEASE] := by
  refine ⟨?_, ?_, ?_⟩
  · rw [free_calls_eq envV bV lastV k hvp]
    unfold MemBlock.freeCall
    rw [hv]
    simp [hk]
  · rw [free_calls_eq envW bW lastW 0 hwp]
    unfold MemBlock.freeCall
    rw [hw, align_zero]
    simp
  · rw [free_calls_eq envP bP lastP m hpp]
    unfold MemBlock.freeCall
    rw [hp]
    simp

/-- C4 witness: the amended statement at concrete inputs. -/
theorem C4_free_modes_witness :
    (MemBlock.Free envOk blockV 0 4096).calls =
      [CallEvt.accessorFree blockV.ptr (Align (4096 % W) 4096) MEM_DECOMMIT] ∧
    (MemBlock.Free envOk blockV 0 0).calls =
      [CallEvt.accessorFree blockV.ptr 0 MEM_RELEASE] ∧
    (MemBlock.Free envOk blockP 0 4096).calls =
      [CallEvt.driverFree envOk.pid blockP.ptr (Align (4096 % W) 4096) MEM_RELEASE] :=
  C4_free_modes_amended envOk blockV 0 4096 (by decide) (by decide) (by decide)
    envOk blockV 0 (by decide) (by decide)
    envOk blockP 0 4096 (by decide) (by decide)

/-- C4 counterexample: the claim as stated is false for Physical backing —
`Free(0x1000)` on a physical block issues a release-mode driver free, not a
decommit-mode one. -/
theorem C4_free_modes_cex :
    (MemBlock.Free envOk blockP 0 4096).calls =
      [CallEvt.driverFree 7 65536 4096 MEM_RELEASE] ∧
    MEM_RELEASE ≠ MEM_DECOMMIT := by
  decide

/-- C5: when `Realloc` obtains a non-zero new base, it issues a full release
of the previously held non-empty region (a size-`0` free call against the
old base) and only then rebinds the descriptor to the new address, size and
protection, preserving ownership; when both allocation attempts yield base
`0`, the block is left exactly as it was and `0` is returned. -/
theorem C5_realloc
    (envS : Env) (bS : MemBlock) (lastS : Int) (sz d p a : Nat)
    (hS1 : envS.allocFn d sz p = (STATUS_SUCCESS, a)) (haS : a ≠ 0)
    (hSp : bS.ptr ≠ 0)
    (hfree : NT_SUCCESS (MemBlock.freeStatus envS bS 0))
    (envF : Env) (bF : MemBlock) (lastF : Int) (szF dF pF : Nat)
    (hF1 : (envF.allocFn dF szF pF).2 = 0)
    (hF2 : (envF.allocFn 0 szF pF).2 = 0) :
    ((MemBlock.Realloc envS bS lastS sz d p).block.ptr = a ∧
      (MemBlock.Realloc envS bS lastS sz d p).block.size = sz ∧
      (MemBlock.Realloc envS bS lastS sz d p).block.protection = p ∧
      (MemBlock.Realloc envS bS lastS sz d p).block.own = bS.own ∧
      (MemBlock.Realloc envS bS lastS sz d p).ret = a ∧
      (MemBlock.Realloc envS bS lastS sz d p).calls =
        [CallEvt.allocReq d sz MEM_COMMIT p, MemBlock.freeCall envS bS 0]) ∧
    ((MemBlock.Realloc envF bF lastF szF dF pF).block = bF ∧
      (MemBlock.Realloc envF bF lastF szF dF pF).ret = 0) := by
  constructor
  · simp only [MemBlock.Realloc]
    rw [hS1]
    simp only [Prod.snd]
    rw [if_neg haS, if_pos haS, free_full_eq envS bS _ hSp hfree]
    exact ⟨rfl, rfl, rfl, rfl, rfl, rfl⟩
  · simp only [MemBlock.Realloc]
    rw [if_pos hF1, hF2]
    simp

/-- C5 witness: the two scenarios at concrete inputs (successful rebind at
base `0x2000`; a doubly denied allocation leaving the block untouched). -/
theorem C5_realloc_witness :
    ((MemBlock.Realloc envOk blockV 0 4096 0 2).block.ptr = 8192 ∧
      (MemBlock.Realloc envOk blockV 0 4096 0 2).block.size = 4096 ∧
      (MemBlock.Realloc envOk blockV 0 4096 0 2).block.protection = 2 ∧
      (MemBlock.Realloc envOk blockV 0 4096 0 2).block.own = blockV.own ∧
      (MemBlock.Realloc envOk blockV 0 4096 0 2).ret = 8192 ∧
      (MemBlock.Realloc envOk blockV 0 4096 0 2).calls =
        [CallEvt.allocReq 0 4096 MEM_COMMIT 2, MemBlock.freeCall envOk blockV 0]) ∧
    ((MemBlock.Realloc envBothFail blockV 0 4096 65536 2).block = blockV ∧
      (MemBlock.Realloc envBothFail blockV 0 4096 65536 2).ret = 0) :=
  C5_realloc envOk blockV 0 4096 0 2 8192 (by decide) (by decide) (by decide)
    (by decide) envBothFail blockV 0 4096 65536 2 (by decide) (by decide)

/-- C6 (amended): `Protect` never modifies the block descriptor at all — in
particular a successful whole-block `Protect` does NOT update the block's
own protection field, just as a sub-range `Protect` does not. -/
theorem C6_protect_no_update (env : Env) (b : MemBlock) (last : Int)
    (protection offset size0 : Nat) :
    (MemBlock.Protect env b last protection offset size0).block = b := rfl

/-- C6 counterexample: a successful `Protect` over the whole block (size
argument `0`, meaning the whole `_size`) with new protection `2` leaves the
block's protection field at its old value `4` instead of updating it. -/
theorem C6_protect_cex :
    NT_SUCCESS (MemBlock.Protect envOk blockV 0 2 0 0).status ∧
    (MemBlock.Protect envOk blockV 0 2 0 0).block.protection = 4 ∧
    (MemBlock.Protect envOk blockV 0 2 0 0).block.protection ≠ 2 := by
  decide

/-- C7: whenever the collaborator chosen by `Free` returns a non-success
status (any size argument, either backing), the block descriptor — address,
size, protection, ownership — is left unmodified, and the failing status is
both returned and surfaced through the last-error channel. -/
theorem C7_free_failure (env : Env) (b : MemBlock) (last : Int) (size0 : Nat)
    (hptr : b.ptr ≠ 0)
    (hbad : ¬ NT_SUCCESS (MemBlock.freeStatus env b (Align (size0 % W) 4096))) :
    (MemBlock.Free env b last size0).block = b ∧
    (MemBlock.Free env b last size0).status =
      MemBlock.freeStatus env b (Align (size0 % W) 4096) ∧
    (MemBlock.Free env b last size0).last =
      MemBlock.freeStatus env b (Align (size0 % W) 4096) := by
  rw [free_fail_eq env b last size0 hptr hbad]
  exact ⟨rfl, rfl, rfl⟩

/-- C7 witness: a failing full free on a virtual block at concrete inputs. -/
theorem C7_free_failure_witness :
    (MemBlock.Free envFreeFail blockV 0 0).block = blockV ∧
    (MemBlock.Free envFreeFail blockV 0 0).status =
      MemBlock.freeStatus envFreeFail blockV (Align (0 % W) 4096) ∧
    (MemBlock.Free envFreeFail blockV 0 0).last =
      MemBlock.freeStatus envFreeFail blockV (Align (0 % W) 4096) :=
  C7_free_failure envFreeFail blockV 0 0 (by decide) (by decide)

/-- C8 (amended): for every block with a non-zero address whose full-free
collaborator call succeeds, the first `Free(0)` empties the descriptor
(address, size and protection all `0`) and returns success, and the second
`Free(0)` performs no collaborator call at all, returns success, and leaves
the descriptor unchanged. (The unrestricted claim fails on the reachable
address-`0` blocks with non-zero size produced by a failed `Allocate`.) -/
theorem C8_full_free_idem (env : Env) (b : MemBlock) (last : Int)
    (hptr : b.ptr ≠ 0) (hok : NT_SUCCESS (MemBlock.freeStatus env b 0)) :
    (MemBlock.Free env b last 0).block.ptr = 0 ∧
    (MemBlock.Free env b last 0).block.size = 0 ∧
    (MemBlock.Free env b last 0).block.protection = 0 ∧
    (MemBlock.Free env b last 0).status = STATUS_SUCCESS ∧
    (MemBlock.Free env (MemBlock.Free env b last 0).block
      (MemBlock.Free env b last 0).last 0).calls = [] ∧
    (MemBlock.Free env (MemBlock.Free env b last 0).block
      (MemBlock.Free env b last 0).last 0).status = STATUS_SUCCESS ∧
    (MemBlock.Free env (MemBlock.Free env b last 0).block
      (MemBlock.Free env b last 0).last 0).block =
      (MemBlock.Free env b last 0).block := by
  rw [free_full_eq env b last hptr hok]
  rw [free_noop_eq env _ last 0 rfl]
  exact ⟨rfl, rfl, rfl, rfl, rfl, rfl, rfl⟩

/-- C8 witness: the amended statement at concrete inputs. -/
theorem C8_full_free_witness :
    (MemBlock.Free envOk blockV 0 0).block.ptr = 0 ∧
    (MemBlock.Free envOk blockV 0 0).block.size = 0 ∧
    (MemBlock.Free envOk blockV 0 0).block.protection = 0 ∧
    (MemBlock.Free envOk blockV 0 0).status = STATUS_SUCCESS ∧
    (MemBlock.Free envOk (MemBlock.Free envOk blockV 0 0).block
      (MemBlock.Free envOk blockV 0 0).last 0).calls = [] ∧
    (MemBlock.Free envOk (MemBlock.Free envOk blockV 0 0).block
      (MemBlock.Free envOk blockV 0 0).last 0).status = STATUS_SUCCESS ∧
    (MemBlock.Free envOk (MemBlock.Free envOk blockV 0 0).block
      (MemBlock.Free envOk blockV 0 0).last 0).block =
      (MemBlock.Free envOk blockV 0 0).block :=
  C8_full_free_idem envOk blockV 0 (by decide) (by decide)

/-- C8 counterexample: the claim quantifies over every block, but the block
returned by a fully failed `Allocate` has address `0` with non-zero size and
protection; its first `Free(0)` returns success while leaving it non-empty,
so the claim as stated is false. -/
theorem C8_full_free_cex :
    (MemBlock.Free envOk (MemBlock.Allocate envBothFail 0 4096 65536 4).block
      0 0).status = STATUS_SUCCESS ∧
    (MemBlock.Free envOk (MemBlock.Allocate envBothFail 0 4096 65536 4).block
      0 0).block.size ≠ 0 ∧
    (MemBlock.Free envOk (MemBlock.Allocate envBothFail 0 4096 65536 4).block
      0 0).block.protection ≠ 0 := by
  decide

/-- C9: `Protect` and `Free` on a Physical-backed block route to the
privileged channel carrying the target process id and never touch the
memory accessor; on a Virtual-backed block they route to the memory
accessor and never touch the privileged channel. -/
theorem C9_backing_dispatch (env : Env) (last : Int)
    (bp bv : MemBlock) (hp : bp.physical = true) (hv : bv.physical = false)
    (hpp : bp.ptr ≠ 0) (hvp : bv.ptr ≠ 0)
    (prot off sz k m : Nat) :
    (MemBlock.Protect env bp last prot off sz).calls =
      [CallEvt.driverProtect env.pid ((bp.ptr + off) % W)
        (if sz = 0 then bp.size else sz) (env.castProt prot env.dep)] ∧
    (MemBlock.Free env bp last k).calls =
      [CallEvt.driverFree env.pid bp.ptr (Align (k % W) 4096) MEM_RELEASE] ∧
    (MemBlock.Protect env bv last prot off sz).calls =
      [CallEvt.accessorProtect ((bv.ptr + off) % W)
        (if sz = 0 then bv.size else sz) (env.castProt prot env.dep)] ∧
    (MemBlock.Free env bv last m).calls =
      [CallEvt.accessorFree bv.ptr (Align (m % W) 4096)
        (if Align (m % W) 4096 = 0 then MEM_RELEASE else MEM_DECOMMIT)] := by
  refine ⟨?_, ?_, ?_, ?_⟩
  · simp only [MemBlock.Protect, MemBlock.protCall]
    rw [hp]
    simp
  · rw [free_calls_eq env bp last k hpp]
    unfold MemBlock.freeCall
    rw [hp]
    simp
  · simp only [MemBlock.Protect, MemBlock.protCall]
    rw [hv]
    simp
  · rw [free_calls_eq env bv last m hvp]
    unfold MemBlock.freeCall
    rw [hv]
    simp

/-- C9 witness: the dispatch statement at concrete inputs. -/
theorem C9_backing_dispatch_witness :
    (MemBlock.Protect envOk blockP 0 2 0 0).calls =
      [CallEvt.driverProtect envOk.pid ((blockP.ptr + 0) % W)
        (if (0 : Nat) = 0 then blockP.size else 0) (envOk.castProt 2 envOk.dep)] ∧
    (MemBlock.Free envOk blockP 0 4096).calls =
      [CallEvt.driverFree envOk.pid blockP.ptr (Align (4096 % W) 4096) MEM_RELEASE] ∧
    (MemBlock.Protect envOk blockV 0 2 0 0).calls =
      [CallEvt.accessorProtect ((blockV.ptr + 0) % W)
        (if (0 : Nat) = 0 then blockV.size else 0) (envOk.castProt 2 envOk.dep)] ∧
    (MemBlock.Free envOk blockV 0 4096).calls =
      [CallEvt.accessorFree blockV.ptr (Align (4096 % W) 4096)
        (if Align (4096 % W) 4096 = 0 then MEM_RELEASE else MEM_DECOMMIT)] :=
  C9_backing_dispatch envOk 0 blockP blockV (by decide) (by decide)
    (by decide) (by decide) 2 0 0 4096 4096

/-- C10: `Reset` always leaves the block empty and disowned with the
accessor reference cleared, for every collaborator environment — including
one whose native free fails, whose failure is thus silently discarded: the
resulting descriptor is identical under any two environments, making a
failed release indistinguishable from a successful one at the handle. -/
theorem C10_reset_swallows (env env2 : Env) (b : MemBlock) (last last2 : Int) :
    (MemBlock.Reset env b last).block =
      { ptr := 0, size := 0, protection := 0, own := false,
        physical := b.physical, memSet := false } ∧
    (MemBlock.Reset env b last).block = (MemBlock.Reset env2 b last2).block := by
  constructor
  · exact reset_eq env b last
  · rw [reset_eq, reset_eq]

end Blackbone
